import Mathlib

/-!
Verification of the LearnFlow code-sandbox service
(`src/api/sandbox/executor.py` and `src/api/sandbox/main.py`).

The OS-level pieces (process spawning, queues, signals, rlimits) are modelled
abstractly: the dynamic outcome of compiling and running the submitted snippet
inside the worker is an `ExecOutcome`, and the supervisor's three observation
points after `process.join(timeout + 2)` (still alive / reported / dead with an
empty queue) are a `WorkerFate`.  All classification logic, message formatting,
the import denylist, the `safe_open` path check and the gateway pre-filter are
translated directly from the Python source.
-/

namespace LearnFlow

/-- The result dict produced by the sandbox on every path:
`{stdout, stderr, success, error_type, execution_time_ms}`.
`error_type` is the Python string (`"syntax"`, `"runtime"`, `"timeout"`,
`"memory"`) or `none` (Python `None`). -/
structure ExecutionResult where
  stdout : String
  stderr : String
  success : Bool
  error_type : Option String
  execution_time_ms : Int
deriving Repr, DecidableEq

/-- `BLOCKED_MODULES` from `executor.py` (lines 26-34). -/
def BLOCKED_MODULES : List String :=
  ["subprocess", "os.system", "shutil", "socket", "http",
   "urllib", "requests", "ftplib", "smtplib", "telnetlib",
   "xmlrpc", "ctypes", "importlib", "code", "codeop",
   "compile", "compileall", "py_compile", "zipimport",
   "pkgutil", "ensurepip", "pip", "venv", "webbrowser",
   "antigravity", "turtle", "tkinter", "multiprocessing",
   "threading", "signal", "pathlib"]

/-- Python's `s.startswith(pre)`, computed on the underlying character lists. -/
def pyStartsWith (s pre : String) : Bool :=
  List.isPrefixOf pre.data s.data

/-- Python's `s.lower()`, computed characterwise (the sources only apply it to
ASCII pattern matching). -/
def pyLower (s : String) : String :=
  String.mk (s.data.map Char.toLower)

/-- The test performed by `safe_import` (executor.py lines 110-113):
`name in BLOCKED_MODULES or any(name.startswith(m + ".") for m in BLOCKED_MODULES)`.
When it holds, `safe_import` raises `ImportError` instead of importing. -/
def importBlocked (name : String) : Bool :=
  BLOCKED_MODULES.contains name ||
    BLOCKED_MODULES.any (fun m => pyStartsWith name (m ++ "."))

/-- The message of the `ImportError` raised by `safe_import` (executor.py line 112). -/
def importErrorMsg (modName : String) : String :=
  "Module '" ++ modName ++ "' is not allowed in the sandbox"

/-- `safe_open` (executor.py lines 56-63): denies any path whose string form
starts with neither `"/tmp"` nor the platform temp directory, raising
`PermissionError`; otherwise it delegates to the real `open` (modelled as
success). -/
def safe_open (tmpdir filepath : String) : Except String Unit :=
  if !pyStartsWith filepath "/tmp" && !pyStartsWith filepath tmpdir then
    Except.error "File access denied: only /tmp is allowed"
  else
    Except.ok ()

/-- Modelled from the spec's words (for comparison with `safe_open` only, not
from the source): a path is inside the scratch directory when it is the
directory itself or a descendant of it. -/
def specInsideScratch (dir p : String) : Bool :=
  p == dir || pyStartsWith p (dir ++ "/")

/-- The `(soft, hard)` resource ceilings installed by the worker before any
user code runs (executor.py lines 79-86). -/
structure RLimits where
  address_space : Nat × Nat
  cpu_seconds : Nat × Nat
  nproc : Nat × Nat
deriving Repr, DecidableEq

/-- `setrlimit` calls of `_execute_code` (executor.py lines 79-86):
`RLIMIT_AS = (memory_mb*1024*1024, memory_mb*1024*1024)`,
`RLIMIT_CPU = (timeout + 1, timeout + 2)`, `RLIMIT_NPROC = (0, 0)`. -/
def workerRLimits (timeout memory_mb : Nat) : RLimits :=
  { address_space := (memory_mb * 1024 * 1024, memory_mb * 1024 * 1024)
    cpu_seconds := (timeout + 1, timeout + 2)
    nproc := (0, 0) }

/-- Dynamic outcome of the worker's compile-and-run of the snippet
(`_execute_code`, executor.py lines 117-178).  `out` is what the snippet wrote
to the captured stdout before the outcome occurred; `compileFailed` carries no
output because `compile` runs before any user code.  `importDenied` is the
`ImportError` raised by `safe_import` (caught by the generic `except Exception`
clause, whose stderr is `traceback.format_exc()`, here `tbHead` followed by the
exception's own line).  `setupFailed` is the outer `except` around the
`setrlimit`/`signal` preamble (executor.py lines 171-178). -/
inductive ExecOutcome
  | ok (out err : String)
  | compileFailed (msg : String) (lineno : Nat)
  | timedOut (out : String)
  | memoryExceeded (out : String)
  | importDenied (modName tbHead out : String)
  | otherFailed (tb out : String)
  | setupFailed (msg : String)
deriving Repr, DecidableEq

/-- The dict `_execute_code` puts on the result queue, for each outcome
(executor.py lines 123-178).  `elapsedMs` stands for
`int((time.time() - start_time) * 1000)` at the moment the dict is built. -/
def workerResult (timeout memory_mb : Nat) (o : ExecOutcome) (elapsedMs : Nat) :
    ExecutionResult :=
  match o with
  | .ok out err =>
      { stdout := out, stderr := err, success := true, error_type := none,
        execution_time_ms := (elapsedMs : Int) }
  | .compileFailed msg lineno =>
      { stdout := "",
        stderr := "SyntaxError: " ++ msg ++ " (line " ++ toString lineno ++ ")",
        success := false, error_type := some "syntax",
        execution_time_ms := (elapsedMs : Int) }
  | .timedOut out =>
      { stdout := out,
        stderr := "TimeoutError: Code exceeded " ++ toString timeout ++ " second time limit",
        success := false, error_type := some "timeout",
        execution_time_ms := ((timeout * 1000 : Nat) : Int) }
  | .memoryExceeded out =>
      { stdout := out,
        stderr := "MemoryError: Code exceeded " ++ toString memory_mb ++ "MB memory limit",
        success := false, error_type := some "memory",
        execution_time_ms := (elapsedMs : Int) }
  | .importDenied modName tbHead out =>
      { stdout := out,
        stderr := tbHead ++ "ImportError: " ++ importErrorMsg modName ++ "\n",
        success := false, error_type := some "runtime",
        execution_time_ms := (elapsedMs : Int) }
  | .otherFailed tb out =>
      { stdout := out, stderr := tb, success := false, error_type := some "runtime",
        execution_time_ms := (elapsedMs : Int) }
  | .setupFailed msg =>
      { stdout := "", stderr := msg, success := false, error_type := some "runtime",
        execution_time_ms := (elapsedMs : Int) }

/-- What the supervisor observes once `process.join(timeout + 2)` returns
(executor.py lines 199-212): the worker is still alive (`hung`), it reported an
outcome (`reported`, queue non-empty), or it died with the queue empty
(`died`). -/
inductive WorkerFate
  | reported (o : ExecOutcome) (elapsedMs : Nat)
  | hung
  | died
deriving Repr, DecidableEq

/-- The join deadline of the supervisor: `process.join(timeout=timeout + 2)`
(executor.py line 199). -/
def joinDeadline (timeout : Nat) : Nat := timeout + 2

/-- `execute_sandboxed` (executor.py lines 181-221): kill and synthesize a
timeout result when the worker is still alive after the join deadline; relay
the queue entry when one exists; otherwise synthesize a runtime failure. -/
def execute_sandboxed (timeout memory_mb : Nat) (fate : WorkerFate) :
    ExecutionResult :=
  match fate with
  | .hung =>
      { stdout := "",
        stderr := "TimeoutError: Code exceeded " ++ toString timeout ++ " second time limit",
        success := false, error_type := some "timeout",
        execution_time_ms := ((timeout * 1000 : Nat) : Int) }
  | .reported o elapsedMs => workerResult timeout memory_mb o elapsedMs
  | .died =>
      { stdout := "", stderr := "Execution failed: no result returned",
        success := false, error_type := some "runtime",
        execution_time_ms := 0 }

/-- The `dangerous` pattern list of the gateway pre-filter (main.py lines 52-53). -/
def dangerous : List String :=
  ["import os", "import subprocess", "import socket", "import shutil",
   "__import__", "eval(", "exec(", "compile("]

/-- Python's substring test `needle in hay` on lists of characters. -/
def charsContain (hay needle : List Char) : Bool :=
  (List.range (hay.length + 1)).any (fun i => needle.isPrefixOf (hay.drop i))

/-- Python's substring test `needle in hay` on strings. -/
def pyIn (needle hay : String) : Bool :=
  charsContain hay.data needle.data

/-- The gateway scan (main.py lines 54-56): the first pattern `p` in
`dangerous` with `p.lower() in code.lower()`, if any. -/
def findDangerous (code : String) : Option String :=
  dangerous.find? (fun p => pyIn (pyLower p) (pyLower code))

/-- The request body `{code, timeout, memory_mb}` of `POST /execute`
(main.py lines 31-34). -/
structure ExecuteRequest where
  code : String
  timeout : Nat
  memory_mb : Nat
deriving Repr, DecidableEq

/-- What happens when the gateway invokes the core (main.py lines 65-77):
either `execute_sandboxed` runs and its worker meets some fate, or the
invocation itself raises and the `except` clause fires with message `msg`. -/
inductive CoreRun
  | run (fate : WorkerFate)
  | raisedMsg (msg : String)
deriving Repr, DecidableEq

/-- The `/execute` endpoint `execute_code` (main.py lines 45-77): pre-filter
scan first; on a match, a security rejection with `error_type = "runtime"`;
otherwise relay the core's result, or the `InternalError` response when the
invocation raised. -/
def execute_code (req : ExecuteRequest) (core : CoreRun) : ExecutionResult :=
  match findDangerous req.code with
  | some pattern =>
      { stdout := "",
        stderr := "SecurityError: '" ++ pattern ++ "' is not allowed in the sandbox",
        success := false, error_type := some "runtime",
        execution_time_ms := 0 }
  | none =>
      match core with
      | .run fate => execute_sandboxed req.timeout req.memory_mb fate
      | .raisedMsg msg =>
          { stdout := "", stderr := "InternalError: " ++ msg,
            success := false, error_type := some "runtime",
            execution_time_ms := 0 }

/-- `sub` occurs as a substring of `s`. -/
def containsStr (s sub : String) : Prop :=
  ∃ a b : String, s = a ++ sub ++ b

/-- A boolean predicate that holds somewhere in a list makes `List.find?` succeed. -/
theorem find_some_of_mem {α : Type} (f : α → Bool) :
    ∀ (l : List α) (x : α), x ∈ l → f x = true → (l.find? f).isSome = true := by
  intro l
  induction l with
  | nil => intro x hx _; cases hx
  | cons a as ih =>
    intro x hx hfx
    by_cases ha : f a = true
    · rw [List.find?_cons_of_pos _ ha]; rfl
    · rw [List.find?_cons_of_neg _ (by simpa using ha)]
      cases hx with
      | head => exact absurd hfx ha
      | tail _ hmem => exact ih x hmem hfx

/-- Every branch of the supervisor attaches a non-negative `execution_time_ms`. -/
theorem execute_sandboxed_duration_nonneg (timeout memory_mb : Nat) (fate : WorkerFate) :
    0 ≤ (execute_sandboxed timeout memory_mb fate).execution_time_ms := by
  cases fate with
  | hung => exact Int.natCast_nonneg _
  | died => exact le_refl 0
  | reported o t => cases o <;> exact Int.natCast_nonneg _

/-- C1: for every valid source snippet that writes text `T` to standard output
and terminates normally within the limits, `execute_sandboxed` returns a result
with `success = true`, `error_type = none`, and `stdout` containing `T`.  Such
a run is a worker that reports the `ok` outcome with captured stdout `T`. -/
theorem C1_success_path (timeout memory_mb elapsedMs : Nat) (T errOut : String) :
    (execute_sandboxed timeout memory_mb (.reported (.ok T errOut) elapsedMs)).success = true ∧
    (execute_sandboxed timeout memory_mb (.reported (.ok T errOut) elapsedMs)).error_type = none ∧
    containsStr (execute_sandboxed timeout memory_mb (.reported (.ok T errOut) elapsedMs)).stdout T := by
  refine ⟨rfl, rfl, "", "", ?_⟩
  show T = "" ++ T ++ ""
  simp

/-- C2: when the worker is still alive once the join deadline of
`timeout + 2` seconds (the fixed 2-second grace period) has elapsed with no
report, the supervisor kills it and returns a synthesized result with
`success = false`, `error_type = "timeout"`, `stdout = ""`, and
`execution_time_ms` exactly `timeout * 1000`; the bounded join means it never
waits indefinitely. -/
theorem C2_supervisor_timeout (timeout memory_mb : Nat) :
    joinDeadline timeout = timeout + 2 ∧
    (execute_sandboxed timeout memory_mb .hung).success = false ∧
    (execute_sandboxed timeout memory_mb .hung).error_type = some "timeout" ∧
    (execute_sandboxed timeout memory_mb .hung).stdout = "" ∧
    (execute_sandboxed timeout memory_mb .hung).execution_time_ms = (timeout : Int) * 1000 := by
  refine ⟨rfl, rfl, rfl, rfl, ?_⟩
  show ((timeout * 1000 : Nat) : Int) = (timeout : Int) * 1000
  push_cast
  ring

/-- C3: on every path through the gateway and the core (worker completion,
worker-side error classification, supervisor timeout, dead-worker synthesis,
gateway pre-filter, gateway internal error), `error_type` is `none` if and
only if `success` is `true`. -/
theorem C3_error_kind_iff_failure (req : ExecuteRequest) (core : CoreRun) :
    (execute_code req core).error_type = none ↔ (execute_code req core).success = true := by
  cases hd : findDangerous req.code with
  | some p => simp [execute_code, hd]
  | none =>
    cases core with
    | raisedMsg msg => simp [execute_code, hd]
    | run fate =>
      cases fate with
      | hung => simp [execute_code, hd, execute_sandboxed]
      | died => simp [execute_code, hd, execute_sandboxed]
      | reported o t =>
        cases o <;> simp [execute_code, hd, execute_sandboxed, workerResult]

/-- C4: for every source snippet that fails to compile, execution
short-circuits before any user code runs (`stdout = ""`, nothing was
captured) and the result has `success = false`, `error_type = "syntax"`, and
a non-empty `stderr` message that includes the offending line number. -/
theorem C4_syntax_short_circuit (timeout memory_mb elapsedMs lineno : Nat) (msg : String) :
    (execute_sandboxed timeout memory_mb (.reported (.compileFailed msg lineno) elapsedMs)).success = false ∧
    (execute_sandboxed timeout memory_mb (.reported (.compileFailed msg lineno) elapsedMs)).error_type = some "syntax" ∧
    (execute_sandboxed timeout memory_mb (.reported (.compileFailed msg lineno) elapsedMs)).stdout = "" ∧
    (execute_sandboxed timeout memory_mb (.reported (.compileFailed msg lineno) elapsedMs)).stderr ≠ "" ∧
    containsStr (execute_sandboxed timeout memory_mb (.reported (.compileFailed msg lineno) elapsedMs)).stderr
      (toString lineno) := by
  refine ⟨rfl, rfl, rfl, ?_, ?_⟩
  · show "SyntaxError: " ++ msg ++ " (line " ++ toString lineno ++ ")" ≠ ""
    intro h
    have h2 := congrArg String.length h
    simp only [String.length_append] at h2
    have e1 : ("SyntaxError: " : String).length = 13 := rfl
    have e2 : ("" : String).length = 0 := rfl
    rw [e1, e2] at h2
    omega
  · exact ⟨"SyntaxError: " ++ msg ++ " (line ", ")", rfl⟩

/-- C5 counterexample: a denylisted import (`subprocess`) is denied, but the
result carries `error_type = "runtime"`, not `"security"` — the worker's
generic `except Exception` clause classifies the `ImportError` directly as
`"runtime"`, and no `"security"` value exists anywhere in the code. -/
theorem C5_counterexample :
    importBlocked "subprocess" = true ∧
    (execute_sandboxed 5 50 (.reported
      (.importDenied "subprocess" "Traceback (most recent call last):\n" "") 3)).error_type ≠
      some "security" ∧
    (execute_sandboxed 5 50 (.reported
      (.importDenied "subprocess" "Traceback (most recent call last):\n" "") 3)).error_type =
      some "runtime" :=
  ⟨by decide, by decide, rfl⟩

/-- C5 (amended): for every source snippet that imports a denylisted module
name (or any dotted submodule of one), `safe_import` raises an import-denial
error before any external process is spawned, and `execute` returns
`success = false` with `error_type = "runtime"` — with no separate internal
`"security"` classification — and a `stderr` containing the explanatory
denial message. -/
theorem C5_amended_import_denial (timeout memory_mb elapsedMs : Nat)
    (modName tbHead outText : String) (hblocked : importBlocked modName = true) :
    importBlocked modName = true ∧
    (execute_sandboxed timeout memory_mb (.reported (.importDenied modName tbHead outText) elapsedMs)).success = false ∧
    (execute_sandboxed timeout memory_mb (.reported (.importDenied modName tbHead outText) elapsedMs)).error_type = some "runtime" ∧
    containsStr (execute_sandboxed timeout memory_mb (.reported (.importDenied modName tbHead outText) elapsedMs)).stderr
      (importErrorMsg modName) := by
  exact ⟨hblocked, rfl, rfl, tbHead ++ "ImportError: ", "\n", rfl⟩

/-- C5 witness: the amended claim at the concrete denylisted module
`subprocess`. -/
theorem C5_amended_witness :
    importBlocked "subprocess" = true ∧
    (execute_sandboxed 5 50 (.reported (.importDenied "subprocess" "Traceback (most recent call last):\n" "") 3)).success = false ∧
    (execute_sandboxed 5 50 (.reported (.importDenied "subprocess" "Traceback (most recent call last):\n" "") 3)).error_type = some "runtime" ∧
    containsStr (execute_sandboxed 5 50 (.reported (.importDenied "subprocess" "Traceback (most recent call last):\n" "") 3)).stderr
      (importErrorMsg "subprocess") :=
  C5_amended_import_denial 5 50 3 "subprocess" "Traceback (most recent call last):\n" "" (by decide)

/-- C6: before any user code runs, the worker installs an address-space
ceiling of `memory_mb` megabytes, a CPU-time ceiling strictly above `timeout`
seconds, and a process-creation ceiling of zero; a memory-ceiling hit during
execution surfaces as a caught `MemoryError` classified
`error_type = "memory"` rather than a silent crash. -/
theorem C6_resource_limits (timeout memory_mb elapsedMs : Nat) (outText : String) :
    (workerRLimits timeout memory_mb).address_space =
      (memory_mb * 1024 * 1024, memory_mb * 1024 * 1024) ∧
    timeout < (workerRLimits timeout memory_mb).cpu_seconds.1 ∧
    (workerRLimits timeout memory_mb).nproc = (0, 0) ∧
    (workerResult timeout memory_mb (.memoryExceeded outText) elapsedMs).success = false ∧
    (workerResult timeout memory_mb (.memoryExceeded outText) elapsedMs).error_type = some "memory" := by
  refine ⟨rfl, ?_, rfl, rfl, rfl⟩
  show timeout < timeout + 1
  omega

/-- C7: when the worker dies without writing to the result channel (queue
empty after the join), the supervisor still produces a result with
`success = false`, `error_type = "runtime"`, and a message saying no result
was returned; and on every path, of the supervisor and of the gateway alike,
the caller receives a complete result with a non-negative
`execution_time_ms`. -/
theorem C7_dead_worker_and_duration (timeout memory_mb : Nat) (fate : WorkerFate)
    (req : ExecuteRequest) (core : CoreRun) :
    (execute_sandboxed timeout memory_mb .died).success = false ∧
    (execute_sandboxed timeout memory_mb .died).error_type = some "runtime" ∧
    (execute_sandboxed timeout memory_mb .died).stderr = "Execution failed: no result returned" ∧
    0 ≤ (execute_sandboxed timeout memory_mb fate).execution_time_ms ∧
    0 ≤ (execute_code req core).execution_time_ms := by
  refine ⟨rfl, rfl, rfl, execute_sandboxed_duration_nonneg _ _ _, ?_⟩
  cases hd : findDangerous req.code with
  | some p => simp [execute_code, hd]
  | none =>
    cases core with
    | raisedMsg m => simp [execute_code, hd]
    | run fate2 =>
      simpa [execute_code, hd] using
        execute_sandboxed_duration_nonneg req.timeout req.memory_mb fate2

/-- C8 counterexample: `safe_open` accepts the path `/tmpevil/secret`, which
lies outside the scratch directory `/tmp` — the check is a raw string-prefix
test, so any sibling path beginning with the characters `/tmp` slips
through. -/
theorem C8_counterexample :
    safe_open "/tmp" "/tmpevil/secret" = Except.ok () ∧
    specInsideScratch "/tmp" "/tmpevil/secret" = false :=
  ⟨rfl, by decide⟩

/-- C8 (amended): inside the sandbox, `open` succeeds exactly for paths whose
string form starts with `/tmp` or with the platform temp directory path
(which covers every path inside the scratch area but also sibling paths such
as `/tmpevil`); every other path raises the permission failure instead of
accessing the file. -/
theorem C8_amended_prefix_rule (tmpdir p : String) :
    (safe_open tmpdir p = Except.ok () ↔
      (pyStartsWith p "/tmp" = true ∨ pyStartsWith p tmpdir = true)) ∧
    (safe_open tmpdir p = Except.error "File access denied: only /tmp is allowed" ↔
      ¬(pyStartsWith p "/tmp" = true ∨ pyStartsWith p tmpdir = true)) := by
  cases h1 : pyStartsWith p "/tmp" <;> cases h2 : pyStartsWith p tmpdir <;>
    simp [safe_open, h1, h2]

/-- C9: when the gateway's static pre-filter finds a disallowed token in the
submitted source, the endpoint short-circuits with the security rejection —
`success = false`, `error_type = "runtime"`, `stdout = ""`, a descriptive
message, `execution_time_ms = 0` — and the result is the same whatever the
core would have done, i.e. no worker is ever consulted. -/
theorem C9_gateway_prefilter (req : ExecuteRequest) (core : CoreRun) (pattern : String)
    (h : findDangerous req.code = some pattern) :
    execute_code req core =
      { stdout := "",
        stderr := "SecurityError: '" ++ pattern ++ "' is not allowed in the sandbox",
        success := false, error_type := some "runtime", execution_time_ms := 0 } := by
  simp [execute_code, h]

/-- C9 witness: the pre-filter fires on the concrete request `import os`. -/
theorem C9_gateway_prefilter_witness :
    execute_code ⟨"import os", 5, 50⟩ (.run .died) =
      { stdout := "",
        stderr := "SecurityError: '" ++ "import os" ++ "' is not allowed in the sandbox",
        success := false, error_type := some "runtime", execution_time_ms := 0 } :=
  C9_gateway_prefilter ⟨"import os", 5, 50⟩ (.run .died) "import os" (by decide)

/-- C10: the gateway pre-filter is a case-insensitive substring match over the
whole source: whenever the code contains one of the `dangerous` patterns
anywhere — inside string literals, comments, or longer tokens alike — the
endpoint rejects the request with `success = false`,
`error_type = "runtime"`, `execution_time_ms = 0` and empty `stdout`,
independently of anything the core would do. -/
theorem C10_substring_prefilter (req : ExecuteRequest) (core : CoreRun) (p : String)
    (hp : p ∈ dangerous) (hc : pyIn (pyLower p) (pyLower req.code) = true) :
    (execute_code req core).success = false ∧
    (execute_code req core).error_type = some "runtime" ∧
    (execute_code req core).execution_time_ms = 0 ∧
    (execute_code req core).stdout = "" := by
  have hsome : (findDangerous req.code).isSome = true :=
    find_some_of_mem _ dangerous p hp hc
  cases hd : findDangerous req.code with
  | none => rw [hd] at hsome; cases hsome
  | some q => simp [execute_code, hd]

/-- C10 witness: the pre-filter fires on uppercase `IMPORT OS.path` buried in
a string literal — a case-insensitive match inside a longer token. -/
theorem C10_substring_prefilter_witness :
    (execute_code ⟨"print('IMPORT OS.path')", 5, 50⟩ (.run .died)).success = false ∧
    (execute_code ⟨"print('IMPORT OS.path')", 5, 50⟩ (.run .died)).error_type = some "runtime" ∧
    (execute_code ⟨"print('IMPORT OS.path')", 5, 50⟩ (.run .died)).execution_time_ms = 0 ∧
    (execute_code ⟨"print('IMPORT OS.path')", 5, 50⟩ (.run .died)).stdout = "" :=
  C10_substring_prefilter ⟨"print('IMPORT OS.path')", 5, 50⟩ (.run .died) "import os"
    (by decide) (by decide)

end LearnFlow
